import Mathlib

/-!
# EasyParkNow booking core — Lean embedding

Shallow embedding of the booking routes of the EasyParkNow backend
(`backend/src/routes/bookings.js` and `backend/src/routes/stripeWebhook.js`):
cost calculation, availability checking, and the booking lifecycle handlers
(create, update, extend, cancel, start, stop), together with the Stripe
webhook entry point.

Times are modelled as integers (milliseconds since epoch); money and hourly
rates as rationals.  Database state is a record of booking rows, payment
rows, and a counter of calls made to the external payment processor's
refund operation.  Each route handler becomes a function from the database
state (plus request data and collaborator outcomes) to the new state paired
with either a typed error or a successful response, mirroring the guard
sequence of the JavaScript source line by line.
-/

namespace EasyParkNow

/-- Floor of a rational, computed from its reduced numerator and
denominator (kernel-reducible; equal to `⌊q⌋` by `ratFloor_eq_floor`). -/
def ratFloor (q : ℚ) : ℤ := q.num / (q.den : ℤ)

/-- JavaScript `Math.ceil` on an exact rational. -/
def jsCeil (q : ℚ) : ℤ := -ratFloor (-q)

/-- JavaScript `Math.round` on an exact rational: round half toward +∞. -/
def jsRound (q : ℚ) : ℤ := ratFloor (q + 1/2)

/-- `calculateBookingCost` from `routes/bookings.js`:
duration in ms, divided by 3,600,000 to get hours; billing hours are
`Math.ceil(durationHours * 4) / 4`; the total is
`Math.round(billingHours * hourlyRate * 100) / 100`. -/
def calculateBookingCost (startTime endTime : ℤ) (hourlyRate : ℚ) : ℚ :=
  let durationMs : ℚ := ((endTime - startTime : ℤ) : ℚ)
  let durationHours : ℚ := durationMs / (1000 * 60 * 60)
  let billingHours : ℚ := (jsCeil (durationHours * 4) : ℚ) / 4
  (jsRound (billingHours * hourlyRate * 100) : ℚ) / 100

theorem ratFloor_eq_floor (q : ℚ) : ratFloor q = ⌊q⌋ := Rat.floor_def.symm

theorem jsCeil_eq_ceil (q : ℚ) : jsCeil q = ⌈q⌉ := by
  rw [jsCeil, ratFloor_eq_floor, Int.floor_neg, neg_neg]

theorem jsRound_eq (q : ℚ) : jsRound q = ⌊q + 1/2⌋ := by
  rw [jsRound, ratFloor_eq_floor]

/-- Spec §4.2 wording: round a duration in hours up to the nearest
quarter-hour (ceiling to nearest 0.25). -/
def ceilToQuarterHour (d : ℚ) : ℚ := ((⌈d * 4⌉ : ℤ) : ℚ) / 4

/-- Spec §4.2 wording: round a money amount to 2 decimal places with
round-half-up at the cent level. -/
def roundHalfUpCents (m : ℚ) : ℚ := ((⌊m * 100 + 1/2⌋ : ℤ) : ℚ) / 100

/-- Reference cost function, written from the spec's words (§4.2):
duration in hours is `(end - start)` ms over 3,600,000, the duration is
ceiled to the nearest quarter hour, multiplied by the rate, and the result
rounded to 2 decimals half-up. -/
def costSpec (startTime endTime : ℤ) (hourlyRate : ℚ) : ℚ :=
  roundHalfUpCents (ceilToQuarterHour (((endTime - startTime : ℤ) : ℚ) / 3600000) * hourlyRate)

/-- Booking statuses (Prisma enum). -/
inductive BookingStatus
  | PENDING | CONFIRMED | ACTIVE | COMPLETED | CANCELLED
  deriving DecidableEq, Repr

/-- Payment statuses (Prisma enum). -/
inductive PaymentStatus
  | PENDING | PROCESSING | SUCCEEDED | FAILED | CANCELLED | REFUNDED
  deriving DecidableEq, Repr

/-- A Booking row, restricted to the fields the booking routes touch. -/
structure Booking where
  id : ℕ
  userId : ℕ
  spaceId : ℕ
  startTime : ℤ
  endTime : ℤ
  totalCost : ℚ
  vehicleReg : String
  status : BookingStatus
  deriving DecidableEq, Repr

/-- A Payment row, restricted to the fields the booking routes touch. -/
structure Payment where
  id : ℕ
  userId : ℕ
  bookingId : ℕ
  amount : ℚ
  status : PaymentStatus
  refundAmount : Option ℚ
  deriving DecidableEq, Repr

/-- A ParkingSpace row, restricted to the fields the booking routes touch. -/
structure Space where
  id : ℕ
  ownerId : ℕ
  price : ℚ
  isActive : Bool
  deriving DecidableEq, Repr

/-- Database state threaded through the handlers.  `refundCalls` counts
invocations of the external payment processor's refund operation
(`processRefund`), so that "never calls the external refund" is a statement
about the model rather than about its silence. -/
structure DB where
  bookings : List Booking
  payments : List Payment
  refundCalls : ℕ
  deriving DecidableEq, Repr

/-- Error codes thrown by the booking routes (`AppError` codes). -/
inductive ErrCode
  | VALIDATION_ERROR
  | SPACE_NOT_FOUND
  | SPACE_INACTIVE
  | CANNOT_BOOK_OWN_SPACE
  | SPACE_NOT_AVAILABLE
  | PAYMENT_FAILED
  | BOOKING_NOT_FOUND
  | UNAUTHORIZED
  | INVALID_BOOKING_STATUS
  | BOOKING_ALREADY_STARTED
  | TOO_EARLY
  | BOOKING_EXPIRED
  deriving DecidableEq, Repr

/-- HTTP status attached to each `AppError` in the routes. -/
def httpStatus : ErrCode → ℕ
  | .VALIDATION_ERROR => 400
  | .SPACE_NOT_FOUND => 404
  | .SPACE_INACTIVE => 400
  | .CANNOT_BOOK_OWN_SPACE => 400
  | .SPACE_NOT_AVAILABLE => 409
  | .PAYMENT_FAILED => 400
  | .BOOKING_NOT_FOUND => 404
  | .UNAUTHORIZED => 403
  | .INVALID_BOOKING_STATUS => 400
  | .BOOKING_ALREADY_STARTED => 400
  | .TOO_EARLY => 400
  | .BOOKING_EXPIRED => 400

/-- The `where` clause of the Prisma query inside `checkSpaceAvailability`:
same space, blocking status, optional self-exclusion, and the three-disjunct
range condition `(s ≤ a0 ∧ e > a0) ∨ (s < a1 ∧ e ≥ a1) ∨ (s ≥ a0 ∧ e ≤ a1)`. -/
def conflictQueryMatch (spaceId : ℕ) (startTime endTime : ℤ)
    (excludeBookingId : Option ℕ) (b : Booking) : Bool :=
  b.spaceId == spaceId &&
  (b.status == .CONFIRMED || b.status == .ACTIVE) &&
  (match excludeBookingId with
   | some eid => b.id != eid
   | none => true) &&
  ((decide (b.startTime ≤ startTime) && decide (b.endTime > startTime)) ||
   (decide (b.startTime < endTime) && decide (b.endTime ≥ endTime)) ||
   (decide (b.startTime ≥ startTime) && decide (b.endTime ≤ endTime)))

/-- `checkSpaceAvailability` from `routes/bookings.js`: find all conflicting
bookings per the Prisma query and report availability as
`conflictingBookings.length === 0`. -/
def checkSpaceAvailability (bookings : List Booking) (spaceId : ℕ)
    (startTime endTime : ℤ) (excludeBookingId : Option ℕ) : Bool :=
  (bookings.filter (conflictQueryMatch spaceId startTime endTime excludeBookingId)).length == 0

/-- The spec's single half-open overlap test (§4.1): `[s,e)` meets `[a0,a1)`
iff `s < a1 ∧ a0 < e`. -/
def overlaps (s e a0 a1 : ℤ) : Prop := s < a1 ∧ a0 < e

instance (s e a0 a1 : ℤ) : Decidable (overlaps s e a0 a1) := by
  unfold overlaps; infer_instance

/-- A stored booking that blocks the candidate range `[a0,a1)` in the sense
of the spec: same space, blocking status, not the excluded id, and the
single overlap test holds. -/
def blocksRange (spaceId : ℕ) (a0 a1 : ℤ) (excludeBookingId : Option ℕ)
    (b : Booking) : Prop :=
  b.spaceId = spaceId ∧ (b.status = .CONFIRMED ∨ b.status = .ACTIVE) ∧
  (∀ eid, excludeBookingId = some eid → b.id ≠ eid) ∧
  overlaps b.startTime b.endTime a0 a1

instance (spaceId : ℕ) (a0 a1 : ℤ) (ex : Option ℕ) (b : Booking) :
    Decidable (blocksRange spaceId a0 a1 ex b) := by
  unfold blocksRange; infer_instance

/-- `prisma.booking.update` on one row: set the fields via `f` on the
booking with the given id. -/
def updateBookingRow (bookings : List Booking) (id : ℕ)
    (f : Booking → Booking) : List Booking :=
  bookings.map (fun b => if b.id = id then f b else b)

/-- `prisma.payment.update` on one row: set the fields via `f` on the
payment with the given id. -/
def updatePaymentRow (payments : List Payment) (id : ℕ)
    (f : Payment → Payment) : List Payment :=
  payments.map (fun p => if p.id = id then f p else p)

/-- `prisma.booking.findUnique({ where: { id } })`. -/
def findBooking (db : DB) (id : ℕ) : Option Booking :=
  db.bookings.find? (fun b => b.id == id)

/-- `prisma.payment` lookup by booking id (the `payment` include on a
booking; Payment–Booking is 1:1). -/
def findPaymentByBooking (db : DB) (bookingId : ℕ) : Option Payment :=
  db.payments.find? (fun p => p.bookingId == bookingId)

/-- Uppercase a vehicle registration (`vehicleReg.toUpperCase()`). -/
def upperReg (s : String) : String := s.toUpper

/-- Result of one route handler: the database state after the call paired
with either a typed error or a successful value. -/
def HandlerResult (α : Type) := DB × Except ErrCode α

/-- Request body of `POST /api/bookings`, restricted to the fields the
claims mention. -/
structure CreateReq where
  spaceId : ℕ
  startTime : ℤ
  endTime : ℤ
  vehicleReg : String
  deriving DecidableEq, Repr

/-- The Joi `createBookingSchema` conditions on the modelled fields:
`startTime` at or after now (`min('now')`), `endTime` strictly after
`startTime` (`greater(ref('startTime'))`), vehicle registration between 2
and 15 characters. -/
def validCreateReq (now : ℤ) (req : CreateReq) : Bool :=
  decide (now ≤ req.startTime) && decide (req.startTime < req.endTime) &&
  decide (2 ≤ req.vehicleReg.length) && decide (req.vehicleReg.length ≤ 15)

/-- Guard phase plus pending insert of `POST /api/bookings`
(lines 113–206): validation, space lookup, active check, own-space check,
availability check, cost computation, then `prisma.booking.create` with
status `PENDING` and the registration uppercased. -/
def createPendingBooking (db : DB) (spaces : List Space) (now : ℤ)
    (req : CreateReq) (userId newBookingId : ℕ) : HandlerResult Booking :=
  if ¬ validCreateReq now req then (db, .error .VALIDATION_ERROR)
  else
    match spaces.find? (fun s => s.id == req.spaceId) with
    | none => (db, .error .SPACE_NOT_FOUND)
    | some space =>
      if ¬ space.isActive then (db, .error .SPACE_INACTIVE)
      else if space.ownerId = userId then (db, .error .CANNOT_BOOK_OWN_SPACE)
      else if ¬ checkSpaceAvailability db.bookings req.spaceId req.startTime req.endTime none then
        (db, .error .SPACE_NOT_AVAILABLE)
      else
        let totalCost := calculateBookingCost req.startTime req.endTime space.price
        let booking : Booking :=
          { id := newBookingId, userId := userId, spaceId := req.spaceId,
            startTime := req.startTime, endTime := req.endTime,
            totalCost := totalCost, vehicleReg := upperReg req.vehicleReg,
            status := .PENDING }
        ({ db with bookings := db.bookings ++ [booking] }, .ok booking)

/-- Full `POST /api/bookings` (lines 113–282): after the pending insert,
`processPayment` is attempted.  On success the booking is flipped to
`CONFIRMED` and a `SUCCEEDED` payment row is created; on failure the
booking is flipped to `CANCELLED` and `PAYMENT_FAILED` (400) is thrown.
`paymentOk` is the outcome of the external charge. -/
def createBooking (db : DB) (spaces : List Space) (now : ℤ) (req : CreateReq)
    (userId newBookingId newPaymentId : ℕ) (paymentOk : Bool) :
    HandlerResult Booking :=
  match createPendingBooking db spaces now req userId newBookingId with
  | (db1, .error e) => (db1, .error e)
  | (db1, .ok booking) =>
    if paymentOk then
      let db2 := { db1 with
        bookings := updateBookingRow db1.bookings booking.id
          (fun b => { b with status := .CONFIRMED }) }
      let db3 := { db2 with
        payments := db2.payments ++
          [{ id := newPaymentId, userId := userId, bookingId := booking.id,
             amount := booking.totalCost, status := .SUCCEEDED,
             refundAmount := none }] }
      (db3, .ok { booking with status := .CONFIRMED })
    else
      ({ db1 with
         bookings := updateBookingRow db1.bookings booking.id
           (fun b => { b with status := .CANCELLED }) },
       .error .PAYMENT_FAILED)

/-- Request body of `PUT /api/bookings/:id`, restricted to the modelled
fields: an optional new vehicle registration. -/
structure UpdateReq where
  vehicleReg : Option String
  deriving DecidableEq, Repr

/-- The Joi `updateBookingSchema` conditions on the modelled fields. -/
def validUpdateReq (req : UpdateReq) : Bool :=
  match req.vehicleReg with
  | none => true
  | some r => decide (2 ≤ r.length) && decide (r.length ≤ 15)

/-- `PUT /api/bookings/:id` (lines 434–489): validation, lookup, owner
guard, `CONFIRMED` guard, already-started guard, then the patch (with the
registration uppercased when present). -/
def updateBooking (db : DB) (bookingId userId : ℕ) (now : ℤ)
    (req : UpdateReq) : HandlerResult Booking :=
  if ¬ validUpdateReq req then (db, .error .VALIDATION_ERROR)
  else
    match findBooking db bookingId with
    | none => (db, .error .BOOKING_NOT_FOUND)
    | some booking =>
      if booking.userId ≠ userId then (db, .error .UNAUTHORIZED)
      else if booking.status ≠ .CONFIRMED then (db, .error .INVALID_BOOKING_STATUS)
      else if booking.startTime ≤ now then (db, .error .BOOKING_ALREADY_STARTED)
      else
        let patch : Booking → Booking := fun b =>
          match req.vehicleReg with
          | none => b
          | some r => { b with vehicleReg := upperReg r }
        ({ db with bookings := updateBookingRow db.bookings bookingId patch },
         .ok (patch booking))

/-- `POST /api/bookings/:id/extend` (lines 495–596): lookup (with space),
owner guard, `CONFIRMED`/`ACTIVE` guard, `newEndTime > currentEndTime`
validation, availability of the increment range with self-exclusion,
incremental cost via `calculateBookingCost`, then payment; on payment
success the booking's end time and total cost are updated and a payment
row for the increment is appended, on failure `PAYMENT_FAILED` is thrown
with no write. -/
def extendBooking (db : DB) (spaces : List Space) (bookingId userId : ℕ)
    (newEndTime : ℤ) (newPaymentId : ℕ) (paymentOk : Bool) :
    HandlerResult Booking :=
  match findBooking db bookingId with
  | none => (db, .error .BOOKING_NOT_FOUND)
  | some booking =>
    if booking.userId ≠ userId then (db, .error .UNAUTHORIZED)
    else if ¬ (booking.status = .CONFIRMED ∨ booking.status = .ACTIVE) then
      (db, .error .INVALID_BOOKING_STATUS)
    else if ¬ (booking.endTime < newEndTime) then (db, .error .VALIDATION_ERROR)
    else if ¬ checkSpaceAvailability db.bookings booking.spaceId booking.endTime
        newEndTime (some booking.id) then
      (db, .error .SPACE_NOT_AVAILABLE)
    else
      let space := (spaces.find? (fun s => s.id == booking.spaceId)).getD
        { id := booking.spaceId, ownerId := 0, price := 0, isActive := true }
      let additionalCost := calculateBookingCost booking.endTime newEndTime space.price
      if paymentOk then
        let updated : Booking :=
          { booking with endTime := newEndTime,
                         totalCost := booking.totalCost + additionalCost }
        ({ db with
           bookings := updateBookingRow db.bookings bookingId
             (fun b => { b with endTime := newEndTime,
                                totalCost := b.totalCost + additionalCost }),
           payments := db.payments ++
             [{ id := newPaymentId, userId := userId, bookingId := bookingId,
                amount := additionalCost, status := .SUCCEEDED,
                refundAmount := none }] },
         .ok updated)
      else (db, .error .PAYMENT_FAILED)

/-- Response of `POST /api/bookings/:id/cancel`. -/
structure CancelResp where
  booking : Booking
  refundAmount : ℚ
  deriving DecidableEq, Repr

/-- `POST /api/bookings/:id/cancel` (lines 602–666): lookup (with payment),
owner guard, `CONFIRMED`/`PENDING` guard; `hoursUntilStart` is
`(startTime - now) / 3,600,000`, a full refund is due iff it is ≥ 1, else
half; the booking is flipped to `CANCELLED`; then, if the refund amount is
positive and a payment row exists, the payment row is set to `REFUNDED`
with the refund amount recorded — inside a try/catch whose failure
(`paymentUpdateFails`) is swallowed.  No call to the external processor's
refund operation is made (`processRefund` is commented out in the source),
so `refundCalls` is never incremented. -/
def cancelBooking (db : DB) (bookingId userId : ℕ) (now : ℤ)
    (paymentUpdateFails : Bool) : HandlerResult CancelResp :=
  match findBooking db bookingId with
  | none => (db, .error .BOOKING_NOT_FOUND)
  | some booking =>
    if booking.userId ≠ userId then (db, .error .UNAUTHORIZED)
    else if ¬ (booking.status = .CONFIRMED ∨ booking.status = .PENDING) then
      (db, .error .INVALID_BOOKING_STATUS)
    else
      let payment? := findPaymentByBooking db bookingId
      let hoursUntilStart : ℚ := ((booking.startTime - now : ℤ) : ℚ) / (1000 * 60 * 60)
      let canCancel : Bool := decide (1 ≤ hoursUntilStart)
      let refundAmount : ℚ :=
        if canCancel then booking.totalCost else booking.totalCost * (1/2)
      let db1 := { db with
        bookings := updateBookingRow db.bookings bookingId
          (fun b => { b with status := .CANCELLED }) }
      let db2 :=
        match payment? with
        | some payment =>
          if 0 < refundAmount ∧ ¬ paymentUpdateFails then
            { db1 with
              payments := updatePaymentRow db1.payments payment.id
                (fun p => { p with status := .REFUNDED,
                                   refundAmount := some refundAmount }) }
          else db1
        | none => db1
      (db2, .ok { booking := { booking with status := .CANCELLED },
                  refundAmount := refundAmount })

/-- `POST /api/bookings/:id/start` (lines 672–731): lookup, owner guard,
`CONFIRMED` guard, early-start window guard (`now < start − 15min` →
`TOO_EARLY`), expiry guard (`now > end` → `BOOKING_EXPIRED`), then the
booking is flipped to `ACTIVE`. -/
def startSession (db : DB) (bookingId userId : ℕ) (now : ℤ) :
    HandlerResult Booking :=
  match findBooking db bookingId with
  | none => (db, .error .BOOKING_NOT_FOUND)
  | some booking =>
    if booking.userId ≠ userId then (db, .error .UNAUTHORIZED)
    else if booking.status ≠ .CONFIRMED then (db, .error .INVALID_BOOKING_STATUS)
    else if now < booking.startTime - 15 * 60 * 1000 then (db, .error .TOO_EARLY)
    else if booking.endTime < now then (db, .error .BOOKING_EXPIRED)
    else
      ({ db with
         bookings := updateBookingRow db.bookings bookingId
           (fun b => { b with status := .ACTIVE }) },
       .ok { booking with status := .ACTIVE })

/-- `POST /api/bookings/:id/stop` (lines 737–781): lookup, owner guard,
`ACTIVE` guard, then the booking is flipped to `COMPLETED`. -/
def stopSession (db : DB) (bookingId userId : ℕ) : HandlerResult Booking :=
  match findBooking db bookingId with
  | none => (db, .error .BOOKING_NOT_FOUND)
  | some booking =>
    if booking.userId ≠ userId then (db, .error .UNAUTHORIZED)
    else if booking.status ≠ .ACTIVE then (db, .error .INVALID_BOOKING_STATUS)
    else
      ({ db with
         bookings := updateBookingRow db.bookings bookingId
           (fun b => { b with status := .COMPLETED }) },
       .ok { booking with status := .COMPLETED })

/-- A verified Stripe event (only its type matters to the model). -/
structure StripeEvent where
  eventType : String
  deriving DecidableEq, Repr

/-- Outcome of `stripe.webhooks.constructEvent` on the raw body, signature
header and shared secret: a verified event, a
`StripeSignatureVerificationError`, or another parse error. -/
inductive ConstructEventResult
  | verified (event : StripeEvent)
  | signatureError
  | otherError
  deriving DecidableEq, Repr

/-- Response codes of the webhook route. -/
inductive WebhookCode
  | OK
  | WEBHOOK_CONFIG_ERROR
  | INVALID_SIGNATURE
  | WEBHOOK_PROCESSING_ERROR
  deriving DecidableEq, Repr

/-- `POST /api/webhooks/stripe` (`routes/stripeWebhook.js` lines 19–77):
if no webhook secret is configured, 500 `WEBHOOK_CONFIG_ERROR`;
`constructEvent` verifies the signature — a
`StripeSignatureVerificationError` yields 400 `INVALID_SIGNATURE`, any
other construction error 400 `WEBHOOK_PROCESSING_ERROR`, and in both
failure cases `handleWebhookEvent` is never invoked; on a verified event
the handler runs and 200 is returned. -/
def stripeWebhook (db : DB) (secretConfigured : Bool)
    (constructEvent : ConstructEventResult)
    (handleWebhookEvent : StripeEvent → DB → DB) : DB × ℕ × WebhookCode :=
  if ¬ secretConfigured then (db, 500, .WEBHOOK_CONFIG_ERROR)
  else
    match constructEvent with
    | .signatureError => (db, 400, .INVALID_SIGNATURE)
    | .otherError => (db, 400, .WEBHOOK_PROCESSING_ERROR)
    | .verified event => (handleWebhookEvent event db, 200, .OK)

/-! ## Supporting lemmas -/

/-- The purely arithmetic core of the availability query: for well-formed
ranges, the three-disjunct range condition of the Prisma query is the
single half-open overlap test. -/
theorem threeDisjunct_iff_overlap (s e a0 a1 : ℤ) (hse : s < e) (ha : a0 < a1) :
    ((s ≤ a0 ∧ a0 < e) ∨ (s < a1 ∧ a1 ≤ e) ∨ (a0 ≤ s ∧ e ≤ a1)) ↔ (s < a1 ∧ a0 < e) := by
  omega

/-- The Boolean row predicate of `checkSpaceAvailability` holds exactly on
the rows that block the candidate range in the spec's sense, provided the
stored range and the candidate range are both non-degenerate. -/
theorem conflictQueryMatch_iff_blocksRange (spaceId : ℕ) (a0 a1 : ℤ)
    (ex : Option ℕ) (b : Booking) (hb : b.startTime < b.endTime) (ha : a0 < a1) :
    conflictQueryMatch spaceId a0 a1 ex b = true ↔ blocksRange spaceId a0 a1 ex b := by
  have harith := threeDisjunct_iff_overlap b.startTime b.endTime a0 a1 hb ha
  cases ex with
  | none =>
    simp only [conflictQueryMatch, blocksRange, overlaps, Bool.and_eq_true,
      Bool.or_eq_true, decide_eq_true_eq, beq_iff_eq]
    constructor
    · rintro ⟨⟨⟨hsp, hst⟩, -⟩, hdis⟩
      exact ⟨hsp, hst, by rintro eid ⟨⟩, harith.mp (by tauto)⟩
    · rintro ⟨hsp, hst, -, hov⟩
      exact ⟨⟨⟨hsp, hst⟩, trivial⟩, by rcases harith.mpr hov with h | h | h <;> tauto⟩
  | some eid =>
    simp only [conflictQueryMatch, blocksRange, overlaps, Bool.and_eq_true,
      Bool.or_eq_true, decide_eq_true_eq, beq_iff_eq, bne_iff_ne, ne_eq]
    constructor
    · rintro ⟨⟨⟨hsp, hst⟩, hid⟩, hdis⟩
      exact ⟨hsp, hst, by rintro e he; cases he; exact hid, harith.mp (by tauto)⟩
    · rintro ⟨hsp, hst, hid, hov⟩
      exact ⟨⟨⟨hsp, hst⟩, hid eid rfl⟩,
        by rcases harith.mpr hov with h | h | h <;> tauto⟩

/-- `checkSpaceAvailability` reports a conflict exactly when some stored
row blocks the candidate range, for non-degenerate stored ranges. -/
theorem checkSpaceAvailability_false_iff (bookings : List Booking)
    (spaceId : ℕ) (a0 a1 : ℤ) (ex : Option ℕ) (ha : a0 < a1)
    (hr : ∀ b ∈ bookings, b.startTime < b.endTime) :
    checkSpaceAvailability bookings spaceId a0 a1 ex = false ↔
      ∃ b ∈ bookings, blocksRange spaceId a0 a1 ex b := by
  unfold checkSpaceAvailability
  constructor
  · intro h
    by_contra hno
    push_neg at hno
    have hnil : bookings.filter (conflictQueryMatch spaceId a0 a1 ex) = [] := by
      rw [List.filter_eq_nil_iff]
      intro b hbmem hmatch
      exact hno b hbmem
        ((conflictQueryMatch_iff_blocksRange spaceId a0 a1 ex b (hr b hbmem) ha).mp hmatch)
    rw [hnil] at h
    simp at h
  · rintro ⟨b, hbmem, hblocks⟩
    rw [Bool.eq_false_iff]
    intro hcontra
    simp only [beq_iff_eq, List.length_eq_zero, List.filter_eq_nil_iff] at hcontra
    exact hcontra b hbmem
      ((conflictQueryMatch_iff_blocksRange spaceId a0 a1 ex b (hr b hbmem) ha).mpr hblocks)

/-- The booking row inserted by the create handler before payment. -/
def pendingBookingOf (req : CreateReq) (userId newBookingId : ℕ) (price : ℚ) : Booking :=
  { id := newBookingId, userId := userId, spaceId := req.spaceId,
    startTime := req.startTime, endTime := req.endTime,
    totalCost := calculateBookingCost req.startTime req.endTime price,
    vehicleReg := upperReg req.vehicleReg, status := .PENDING }

/-- With validation, space, active and ownership guards all passing,
`createPendingBooking` reduces to the availability decision. -/
theorem createPendingBooking_guards_passed
    (db : DB) (spaces : List Space) (now : ℤ) (req : CreateReq)
    (userId newBookingId : ℕ) (space : Space)
    (hval : validCreateReq now req = true)
    (hsp : spaces.find? (fun s => s.id == req.spaceId) = some space)
    (hact : space.isActive = true)
    (hown : space.ownerId ≠ userId) :
    createPendingBooking db spaces now req userId newBookingId =
      if checkSpaceAvailability db.bookings req.spaceId req.startTime req.endTime none then
        ({ db with bookings := db.bookings ++ [pendingBookingOf req userId newBookingId space.price] },
         .ok (pendingBookingOf req userId newBookingId space.price))
      else (db, .error .SPACE_NOT_AVAILABLE) := by
  by_cases hav : checkSpaceAvailability db.bookings req.spaceId req.startTime req.endTime none <;>
    simp [createPendingBooking, pendingBookingOf, hsp, hval, hact, hown, hav]

/-- Updating a freshly appended row leaves the existing rows alone. -/
theorem updateBookingRow_append_fresh (l : List Booking) (nb : Booking)
    (f : Booking → Booking) (h : ∀ b ∈ l, b.id ≠ nb.id) :
    updateBookingRow (l ++ [nb]) nb.id f = l ++ [f nb] := by
  unfold updateBookingRow
  rw [List.map_append]
  congr 1
  · calc l.map (fun b => if b.id = nb.id then f b else b)
        = l.map id := List.map_congr_left (fun b hb => if_neg (h b hb))
      _ = l := List.map_id l
  · simp

/-! ## Claims -/

/-- C1: for a candidate half-open range `[a0,a1)` with `a0 < a1` and stored
bookings whose ranges all satisfy `start < end`, `checkSpaceAvailability`
returns `false` iff some stored booking on the space in a blocking status
(`CONFIRMED`/`ACTIVE`), different from the excluded id when one is given,
satisfies the spec's single overlap test `s < a1 ∧ a0 < e`; the code's
three-disjunct query is thus equivalent to the spec's test, back-to-back
ranges never conflict, and non-blocking statuses never conflict. -/
theorem checkSpaceAvailability_false_iff_blocking (bookings : List Booking)
    (spaceId : ℕ) (a0 a1 : ℤ) (ex : Option ℕ) (ha : a0 < a1)
    (hr : ∀ b ∈ bookings, b.startTime < b.endTime) :
    checkSpaceAvailability bookings spaceId a0 a1 ex = false ↔
      ∃ b ∈ bookings, b.spaceId = spaceId ∧
        (b.status = .CONFIRMED ∨ b.status = .ACTIVE) ∧
        (∀ eid, ex = some eid → b.id ≠ eid) ∧
        (b.startTime < a1 ∧ a0 < b.endTime) :=
  checkSpaceAvailability_false_iff bookings spaceId a0 a1 ex ha hr

/-- Witness for C1 at a concrete input: one `CONFIRMED` booking on space 3
over `[0,101)` blocks the candidate `[100,200)`. -/
theorem checkSpaceAvailability_false_iff_blocking_witness :
    ((100 : ℤ) < 200) ∧
    (∀ b ∈ [Booking.mk 1 2 3 0 101 8 "AB" .CONFIRMED], b.startTime < b.endTime) ∧
    (checkSpaceAvailability [Booking.mk 1 2 3 0 101 8 "AB" .CONFIRMED] 3 100 200 none = false ↔
      ∃ b ∈ [Booking.mk 1 2 3 0 101 8 "AB" .CONFIRMED], b.spaceId = 3 ∧
        (b.status = .CONFIRMED ∨ b.status = .ACTIVE) ∧
        (∀ eid, (none : Option ℕ) = some eid → b.id ≠ eid) ∧
        (b.startTime < 200 ∧ 100 < b.endTime)) :=
  ⟨by decide, by decide,
    checkSpaceAvailability_false_iff_blocking _ 3 100 200 none (by decide) (by decide)⟩

/-- C2: `calculateBookingCost` equals the spec's reference definition
(duration in ms over 3,600,000, ceiled to the nearest quarter hour, times
the rate, rounded half-up at the cent level); for a non-negative rate the
cost is non-negative; and the spec's example start=10:00, end=11:10,
rate=4 bills 1.25 hours for a cost of 5.00. -/
theorem calculateBookingCost_correct (startTime endTime : ℤ) (rate : ℚ)
    (hlt : startTime < endTime) :
    calculateBookingCost startTime endTime rate = costSpec startTime endTime rate ∧
    (0 ≤ rate → 0 ≤ calculateBookingCost startTime endTime rate) ∧
    calculateBookingCost 36000000 40200000 4 = 5 ∧
    ceilToQuarterHour (((40200000 - 36000000 : ℤ) : ℚ) / 3600000) = 5 / 4 := by
  have heq : ∀ s e : ℤ, ∀ r : ℚ,
      calculateBookingCost s e r = costSpec s e r := by
    intro s e r
    simp only [calculateBookingCost, costSpec, ceilToQuarterHour, roundHalfUpCents,
      jsCeil_eq_ceil, jsRound_eq]
    norm_num
  refine ⟨heq _ _ _, ?_, ?_, ?_⟩
  · intro hr
    rw [heq]
    have hd : (0 : ℚ) < ((endTime - startTime : ℤ) : ℚ) / 3600000 := by
      have : (0 : ℤ) < endTime - startTime := by omega
      positivity
    have hc : (0 : ℤ) ≤ ⌈((endTime - startTime : ℤ) : ℚ) / 3600000 * 4⌉ :=
      Int.ceil_nonneg (by positivity)
    have hq : (0 : ℚ) ≤ ceilToQuarterHour (((endTime - startTime : ℤ) : ℚ) / 3600000) := by
      unfold ceilToQuarterHour
      positivity
    have hm : (0 : ℚ) ≤
        ceilToQuarterHour (((endTime - startTime : ℤ) : ℚ) / 3600000) * rate := by
      exact mul_nonneg hq hr
    unfold costSpec roundHalfUpCents
    have hfl : (0 : ℤ) ≤
        ⌊ceilToQuarterHour (((endTime - startTime : ℤ) : ℚ) / 3600000) * rate * 100 + 1/2⌋ := by
      apply Int.floor_nonneg.mpr
      nlinarith
    positivity
  · rw [heq]
    have h1 : (⌈(((40200000 - 36000000 : ℤ) : ℚ)) / 3600000 * 4⌉ : ℤ) = 5 := by
      (rw [Int.ceil_eq_iff]; norm_num)
    unfold costSpec ceilToQuarterHour roundHalfUpCents
    rw [h1]
    have h2 : (⌊((5 : ℤ) : ℚ) / 4 * 4 * 100 + 1/2⌋ : ℤ) = 500 := by
      (rw [Int.floor_eq_iff]; norm_num)
    rw [h2]
    norm_num
  · unfold ceilToQuarterHour
    have h1 : (⌈(((40200000 - 36000000 : ℤ) : ℚ)) / 3600000 * 4⌉ : ℤ) = 5 := by
      (rw [Int.ceil_eq_iff]; norm_num)
    rw [h1]
    norm_num

/-- Witness for C2 at the spec's example input. -/
theorem calculateBookingCost_correct_witness :
    ((36000000 : ℤ) < 40200000) ∧
    (calculateBookingCost 36000000 40200000 4 = costSpec 36000000 40200000 4 ∧
     (0 ≤ (4 : ℚ) → 0 ≤ calculateBookingCost 36000000 40200000 4) ∧
     calculateBookingCost 36000000 40200000 4 = 5 ∧
     ceilToQuarterHour (((40200000 - 36000000 : ℤ) : ℚ) / 3600000) = 5 / 4) :=
  ⟨by decide, calculateBookingCost_correct 36000000 40200000 4 (by decide)⟩

/-- C3: with the validation, space, active and ownership guards passing,
`POST /api/bookings` is rejected with `SPACE_NOT_AVAILABLE` (HTTP 409) iff
some existing `CONFIRMED`/`ACTIVE` booking on the space overlaps the
requested range (so adjoining ranges and non-blocking statuses such as
`CANCELLED` never cause the rejection); when no such conflict exists the
handler inserts a booking in status `PENDING` whose `totalCost` is
`calculateBookingCost` of the range at the space's price and whose
`vehicleReg` is uppercased. -/
theorem createBooking_conflict_iff
    (db : DB) (spaces : List Space) (now : ℤ) (req : CreateReq)
    (userId newBookingId newPaymentId : ℕ) (paymentOk : Bool) (space : Space)
    (hval : validCreateReq now req = true)
    (hsp : spaces.find? (fun s => s.id == req.spaceId) = some space)
    (hact : space.isActive = true)
    (hown : space.ownerId ≠ userId)
    (hr : ∀ b ∈ db.bookings, b.startTime < b.endTime) :
    ((createBooking db spaces now req userId newBookingId newPaymentId paymentOk).2 =
        .error .SPACE_NOT_AVAILABLE ↔
      ∃ b ∈ db.bookings, b.spaceId = req.spaceId ∧
        (b.status = .CONFIRMED ∨ b.status = .ACTIVE) ∧
        overlaps b.startTime b.endTime req.startTime req.endTime) ∧
    httpStatus .SPACE_NOT_AVAILABLE = 409 ∧
    ((¬ ∃ b ∈ db.bookings, b.spaceId = req.spaceId ∧
        (b.status = .CONFIRMED ∨ b.status = .ACTIVE) ∧
        overlaps b.startTime b.endTime req.startTime req.endTime) →
      createPendingBooking db spaces now req userId newBookingId =
        ({ db with bookings := db.bookings ++
            [pendingBookingOf req userId newBookingId space.price] },
         .ok (pendingBookingOf req userId newBookingId space.price)) ∧
      (pendingBookingOf req userId newBookingId space.price).status = .PENDING ∧
      (pendingBookingOf req userId newBookingId space.price).totalCost =
        calculateBookingCost req.startTime req.endTime space.price ∧
      (pendingBookingOf req userId newBookingId space.price).vehicleReg =
        upperReg req.vehicleReg) := by
  have hlt : req.startTime < req.endTime := by
    simp only [validCreateReq, Bool.and_eq_true, decide_eq_true_eq] at hval
    exact hval.1.1.2
  have hiff := checkSpaceAvailability_false_iff_blocking db.bookings req.spaceId
    req.startTime req.endTime none hlt hr
  have hiff' : checkSpaceAvailability db.bookings req.spaceId req.startTime req.endTime none
      = false ↔
      ∃ b ∈ db.bookings, b.spaceId = req.spaceId ∧
        (b.status = .CONFIRMED ∨ b.status = .ACTIVE) ∧
        overlaps b.startTime b.endTime req.startTime req.endTime := by
    rw [hiff]
    constructor
    · rintro ⟨b, hb, h1, h2, -, h4⟩; exact ⟨b, hb, h1, h2, h4⟩
    · rintro ⟨b, hb, h1, h2, h4⟩; exact ⟨b, hb, h1, h2, by rintro eid ⟨⟩, h4⟩
  have hguards := createPendingBooking_guards_passed db spaces now req userId
    newBookingId space hval hsp hact hown
  by_cases hav : checkSpaceAvailability db.bookings req.spaceId req.startTime req.endTime none
  · rw [hav] at hguards
    refine ⟨?_, rfl, ?_⟩
    · rw [createBooking, hguards]
      simp only [if_true]
      constructor
      · intro h
        cases paymentOk <;> simp_all
      · intro h
        rw [← hiff'] at h
        rw [hav] at h
        cases h
    · intro hno
      rw [hguards]
      exact ⟨rfl, rfl, rfl, rfl⟩
  · have havf : checkSpaceAvailability db.bookings req.spaceId req.startTime
        req.endTime none = false := by
      revert hav
      cases checkSpaceAvailability db.bookings req.spaceId req.startTime req.endTime none <;>
        simp
    rw [havf] at hguards
    simp only [Bool.false_eq_true, if_false] at hguards
    refine ⟨?_, rfl, ?_⟩
    · rw [createBooking, hguards]
      simp only []
      rw [← hiff', havf]
      simp
    · intro hno
      rw [← hiff'] at hno
      rw [havf] at hno
      simp at hno

/-- Witness for C3: a space with one `CANCELLED` overlapping booking and
one `CONFIRMED` adjoining booking; the candidate range is accepted. -/
theorem createBooking_conflict_iff_witness :
    validCreateReq 0 (CreateReq.mk 1 1000 5000 "ab") = true ∧
    ([Space.mk 1 2 4 true].find? (fun s => s.id == 1) = some (Space.mk 1 2 4 true)) ∧
    (Space.mk 1 2 4 true).isActive = true ∧
    (Space.mk 1 2 4 true).ownerId ≠ 3 ∧
    (∀ b ∈ [Booking.mk 7 4 1 0 2000 8 "XY" .CANCELLED,
            Booking.mk 8 5 1 5000 6000 8 "ZW" .CONFIRMED],
      b.startTime < b.endTime) ∧
    (((createBooking (DB.mk [Booking.mk 7 4 1 0 2000 8 "XY" .CANCELLED,
            Booking.mk 8 5 1 5000 6000 8 "ZW" .CONFIRMED] [] 0)
        [Space.mk 1 2 4 true] 0 (CreateReq.mk 1 1000 5000 "ab") 3 10 11 true).2 =
        .error .SPACE_NOT_AVAILABLE ↔
      ∃ b ∈ [Booking.mk 7 4 1 0 2000 8 "XY" .CANCELLED,
            Booking.mk 8 5 1 5000 6000 8 "ZW" .CONFIRMED], b.spaceId = 1 ∧
        (b.status = .CONFIRMED ∨ b.status = .ACTIVE) ∧
        overlaps b.startTime b.endTime 1000 5000) ∧
    httpStatus .SPACE_NOT_AVAILABLE = 409 ∧
    ((¬ ∃ b ∈ [Booking.mk 7 4 1 0 2000 8 "XY" .CANCELLED,
            Booking.mk 8 5 1 5000 6000 8 "ZW" .CONFIRMED], b.spaceId = 1 ∧
        (b.status = .CONFIRMED ∨ b.status = .ACTIVE) ∧
        overlaps b.startTime b.endTime 1000 5000) →
      createPendingBooking (DB.mk [Booking.mk 7 4 1 0 2000 8 "XY" .CANCELLED,
            Booking.mk 8 5 1 5000 6000 8 "ZW" .CONFIRMED] [] 0)
        [Space.mk 1 2 4 true] 0 (CreateReq.mk 1 1000 5000 "ab") 3 10 =
        ({ DB.mk [Booking.mk 7 4 1 0 2000 8 "XY" .CANCELLED,
            Booking.mk 8 5 1 5000 6000 8 "ZW" .CONFIRMED] [] 0 with
            bookings := [Booking.mk 7 4 1 0 2000 8 "XY" .CANCELLED,
              Booking.mk 8 5 1 5000 6000 8 "ZW" .CONFIRMED] ++
              [pendingBookingOf (CreateReq.mk 1 1000 5000 "ab") 3 10 (Space.mk 1 2 4 true).price] },
         .ok (pendingBookingOf (CreateReq.mk 1 1000 5000 "ab") 3 10 (Space.mk 1 2 4 true).price)) ∧
      (pendingBookingOf (CreateReq.mk 1 1000 5000 "ab") 3 10 (Space.mk 1 2 4 true).price).status = .PENDING ∧
      (pendingBookingOf (CreateReq.mk 1 1000 5000 "ab") 3 10 (Space.mk 1 2 4 true).price).totalCost =
        calculateBookingCost 1000 5000 (Space.mk 1 2 4 true).price ∧
      (pendingBookingOf (CreateReq.mk 1 1000 5000 "ab") 3 10 (Space.mk 1 2 4 true).price).vehicleReg =
        upperReg "ab")) :=
  ⟨by decide, rfl, rfl, by decide, by decide,
    createBooking_conflict_iff _ _ 0 _ 3 10 11 true _ (by decide) rfl rfl (by decide) (by decide)⟩

/-- C4 counterexample: in a concrete run of the create-booking flow where
the external charge fails, the caller gets `PAYMENT_FAILED`, the booking
ends `CANCELLED` — but the payment table is untouched (still empty), so no
payment record is ever marked failed, contradicting the claim's "the
payment record is marked failed". -/
theorem createBooking_paymentFailure_counterexample :
    (createBooking (DB.mk [] [] 0) [Space.mk 1 2 4 true] 0
        (CreateReq.mk 1 1000 5000 "ab") 3 10 11 false).2 = .error .PAYMENT_FAILED ∧
    ((findBooking (createBooking (DB.mk [] [] 0) [Space.mk 1 2 4 true] 0
        (CreateReq.mk 1 1000 5000 "ab") 3 10 11 false).1 10).map Booking.status =
      some .CANCELLED) ∧
    (createBooking (DB.mk [] [] 0) [Space.mk 1 2 4 true] 0
        (CreateReq.mk 1 1000 5000 "ab") 3 10 11 false).1.payments = [] ∧
    (∀ p ∈ (createBooking (DB.mk [] [] 0) [Space.mk 1 2 4 true] 0
        (CreateReq.mk 1 1000 5000 "ab") 3 10 11 false).1.payments,
      p.status ≠ PaymentStatus.FAILED) := by
  have hpay : (createBooking (DB.mk [] [] 0) [Space.mk 1 2 4 true] 0
      (CreateReq.mk 1 1000 5000 "ab") 3 10 11 false).1.payments = [] := rfl
  refine ⟨rfl, rfl, hpay, ?_⟩
  rw [hpay]
  intro p hp
  cases hp

/-- C4 (amended): when the validation, space, active, ownership and
availability guards pass and the external charge fails, the created
booking transitions `PENDING → CANCELLED` and the caller receives
`PAYMENT_FAILED` (HTTP 400); no payment record is created or modified
(the payment table is exactly as before the call). -/
theorem createBooking_paymentFailure
    (db : DB) (spaces : List Space) (now : ℤ) (req : CreateReq)
    (userId newBookingId newPaymentId : ℕ) (space : Space)
    (hval : validCreateReq now req = true)
    (hsp : spaces.find? (fun s => s.id == req.spaceId) = some space)
    (hact : space.isActive = true)
    (hown : space.ownerId ≠ userId)
    (hav : checkSpaceAvailability db.bookings req.spaceId req.startTime req.endTime none = true)
    (hfresh : ∀ b ∈ db.bookings, b.id ≠ newBookingId) :
    createBooking db spaces now req userId newBookingId newPaymentId false =
      ({ db with bookings := db.bookings ++
          [{ pendingBookingOf req userId newBookingId space.price with status := .CANCELLED }] },
       .error .PAYMENT_FAILED) ∧
    httpStatus .PAYMENT_FAILED = 400 ∧
    (createBooking db spaces now req userId newBookingId newPaymentId false).1.payments =
      db.payments := by
  have hguards := createPendingBooking_guards_passed db spaces now req userId
    newBookingId space hval hsp hact hown
  rw [hav] at hguards
  simp only [if_true] at hguards
  have hmain : createBooking db spaces now req userId newBookingId newPaymentId false =
      ({ db with bookings := db.bookings ++
          [{ pendingBookingOf req userId newBookingId space.price with status := .CANCELLED }] },
       .error .PAYMENT_FAILED) := by
    rw [createBooking, hguards]
    simp only [Bool.false_eq_true, if_false]
    have hupd : updateBookingRow
        (db.bookings ++ [pendingBookingOf req userId newBookingId space.price])
        (pendingBookingOf req userId newBookingId space.price).id
        (fun b => { b with status := .CANCELLED }) =
        db.bookings ++
          [{ pendingBookingOf req userId newBookingId space.price with status := .CANCELLED }] :=
      updateBookingRow_append_fresh db.bookings _ _ (fun b hb => hfresh b hb)
    rw [hupd]
  exact ⟨hmain, rfl, by rw [hmain]⟩

/-- Witness for C4's amended theorem at a concrete input. -/
theorem createBooking_paymentFailure_witness :
    validCreateReq 0 (CreateReq.mk 1 1000 5000 "ab") = true ∧
    (createBooking (DB.mk [] [] 0) [Space.mk 1 2 4 true] 0
        (CreateReq.mk 1 1000 5000 "ab") 3 10 11 false =
      ({ DB.mk [] [] 0 with bookings := [] ++
          [{ pendingBookingOf (CreateReq.mk 1 1000 5000 "ab") 3 10
              (Space.mk 1 2 4 true).price with status := .CANCELLED }] },
       .error .PAYMENT_FAILED) ∧
     httpStatus .PAYMENT_FAILED = 400 ∧
     (createBooking (DB.mk [] [] 0) [Space.mk 1 2 4 true] 0
        (CreateReq.mk 1 1000 5000 "ab") 3 10 11 false).1.payments = []) :=
  ⟨by decide,
    createBooking_paymentFailure (DB.mk [] [] 0) [Space.mk 1 2 4 true] 0
      (CreateReq.mk 1 1000 5000 "ab") 3 10 11 (Space.mk 1 2 4 true)
      (by decide) rfl rfl (by decide) rfl (by decide)⟩

/-- `hoursUntilStart ≥ 1` is exactly "now is at least one hour before the
start time". -/
theorem one_le_hoursUntilStart_iff (s n : ℤ) :
    (1 : ℚ) ≤ ((s - n : ℤ) : ℚ) / (1000 * 60 * 60) ↔ n ≤ s - 3600000 := by
  rw [le_div_iff₀ (by norm_num), one_mul,
    show ((1000 * 60 * 60 : ℚ)) = ((3600000 : ℤ) : ℚ) by norm_num, Int.cast_le]
  omega

/-- A row of an updated booking table that carries the updated id carries
the written status. -/
theorem mem_updateBookingRow_status (l : List Booking) (bid : ℕ)
    (st : BookingStatus) (b' : Booking)
    (hb' : b' ∈ updateBookingRow l bid (fun x => { x with status := st }))
    (hid : b'.id = bid) : b'.status = st := by
  unfold updateBookingRow at hb'
  rcases List.mem_map.mp hb' with ⟨x, hx, hfx⟩
  by_cases h : x.id = bid
  · rw [if_pos h] at hfx
    rw [← hfx]
  · rw [if_neg h] at hfx
    subst hfx
    exact absurd hid h

/-- A row of an updated payment table that carries the updated id carries
the written status and refund amount. -/
theorem mem_updatePaymentRow_refunded (l : List Payment) (pid : ℕ) (ra : ℚ)
    (q : Payment)
    (hq : q ∈ updatePaymentRow l pid
      (fun x => { x with status := .REFUNDED, refundAmount := some ra }))
    (hid : q.id = pid) : q.status = .REFUNDED ∧ q.refundAmount = some ra := by
  unfold updatePaymentRow at hq
  rcases List.mem_map.mp hq with ⟨x, hx, hfx⟩
  by_cases h : x.id = pid
  · rw [if_pos h] at hfx
    rw [← hfx]
    exact ⟨rfl, rfl⟩
  · rw [if_neg h] at hfx
    subst hfx
    exact absurd hid h

/-- C5: cancelling an own `PENDING` or `CONFIRMED` booking always succeeds
(for either outcome of the refund-execution try/catch), flips the booking
to `CANCELLED`, and returns `refundAmount` equal to the full `totalCost`
when now is at least one hour before the start time and half of it
otherwise. -/
theorem cancelBooking_correct (db : DB) (bookingId userId : ℕ) (now : ℤ)
    (paymentUpdateFails : Bool) (b : Booking)
    (hfind : findBooking db bookingId = some b)
    (hown : b.userId = userId)
    (hst : b.status = .CONFIRMED ∨ b.status = .PENDING) :
    (cancelBooking db bookingId userId now paymentUpdateFails).2 =
      .ok { booking := { b with status := .CANCELLED },
            refundAmount :=
              if now ≤ b.startTime - 3600000 then b.totalCost
              else b.totalCost * (1/2) } ∧
    (∀ b' ∈ (cancelBooking db bookingId userId now paymentUpdateFails).1.bookings,
      b'.id = bookingId → b'.status = .CANCELLED) := by
  have hcc := one_le_hoursUntilStart_iff b.startTime now
  have hbookings :
      (cancelBooking db bookingId userId now paymentUpdateFails).1.bookings =
        updateBookingRow db.bookings bookingId (fun x => { x with status := .CANCELLED }) := by
    simp only [cancelBooking, hfind]
    rw [if_neg (by simp [hown]), if_neg (not_not_intro hst)]
    rcases findPaymentByBooking db bookingId with _ | p
    · rfl
    · by_cases hcond :
        (0 < if decide ((1:ℚ) ≤ ((b.startTime - now : ℤ) : ℚ) / (1000 * 60 * 60)) = true
              then b.totalCost else b.totalCost * (1/2)) ∧ ¬ paymentUpdateFails = true
      · simp only [if_pos hcond]
      · simp only [if_neg hcond]
  refine ⟨?_, ?_⟩
  · simp only [cancelBooking, hfind]
    rw [if_neg (by simp [hown]), if_neg (not_not_intro hst)]
    by_cases hc : now ≤ b.startTime - 3600000
    · have hdec : decide ((1:ℚ) ≤ ((b.startTime - now : ℤ) : ℚ) / (1000 * 60 * 60)) = true :=
        decide_eq_true (hcc.mpr hc)
      rcases findPaymentByBooking db bookingId with _ | p <;>
        simp only [hdec, if_true, if_pos hc]
    · have hdec : decide ((1:ℚ) ≤ ((b.startTime - now : ℤ) : ℚ) / (1000 * 60 * 60)) = false := by
        rw [decide_eq_false_iff_not]
        exact fun h => hc (hcc.mp h)
      rcases findPaymentByBooking db bookingId with _ | p <;>
        simp only [hdec, Bool.false_eq_true, if_false, if_neg hc]
  · rw [hbookings]
    intro b' hb' hid
    exact mem_updateBookingRow_status db.bookings bookingId .CANCELLED b' hb' hid

/-- Witness for C5: a confirmed booking starting two hours from now is
cancelled while the refund-execution step fails; the cancellation still
succeeds with a full refund. -/
theorem cancelBooking_correct_witness :
    findBooking (DB.mk [Booking.mk 1 2 3 7200000 10800000 8 "AB" .CONFIRMED]
        [Payment.mk 5 2 1 8 .SUCCEEDED none] 0) 1 =
      some (Booking.mk 1 2 3 7200000 10800000 8 "AB" .CONFIRMED) ∧
    ((cancelBooking (DB.mk [Booking.mk 1 2 3 7200000 10800000 8 "AB" .CONFIRMED]
        [Payment.mk 5 2 1 8 .SUCCEEDED none] 0) 1 2 0 true).2 =
      .ok { booking := { Booking.mk 1 2 3 7200000 10800000 8 "AB" .CONFIRMED with
              status := .CANCELLED },
            refundAmount :=
              if (0 : ℤ) ≤ (Booking.mk 1 2 3 7200000 10800000 8 "AB" .CONFIRMED).startTime - 3600000
              then (Booking.mk 1 2 3 7200000 10800000 8 "AB" .CONFIRMED).totalCost
              else (Booking.mk 1 2 3 7200000 10800000 8 "AB" .CONFIRMED).totalCost * (1/2) } ∧
     (∀ b' ∈ (cancelBooking (DB.mk [Booking.mk 1 2 3 7200000 10800000 8 "AB" .CONFIRMED]
        [Payment.mk 5 2 1 8 .SUCCEEDED none] 0) 1 2 0 true).1.bookings,
       b'.id = 1 → b'.status = .CANCELLED)) :=
  ⟨rfl, cancelBooking_correct _ 1 2 0 true _ rfl rfl (Or.inl rfl)⟩

/-- C10: when an own `PENDING`/`CONFIRMED` booking with an associated
payment row and positive total cost is cancelled and the local payment
update does not throw, the payment row is set to `REFUNDED` with the
computed refund amount recorded on it, while the external payment
processor's refund operation is never invoked (`refundCalls` is
unchanged — `processRefund` is commented out in the source). -/
theorem cancelBooking_refund_is_local_only (db : DB) (bookingId userId : ℕ)
    (now : ℤ) (b : Booking) (p : Payment)
    (hfind : findBooking db bookingId = some b)
    (hown : b.userId = userId)
    (hst : b.status = .CONFIRMED ∨ b.status = .PENDING)
    (hpay : findPaymentByBooking db bookingId = some p)
    (hpos : 0 < b.totalCost) :
    (∀ q ∈ (cancelBooking db bookingId userId now false).1.payments,
      q.id = p.id → q.status = .REFUNDED ∧
        q.refundAmount = some (if now ≤ b.startTime - 3600000 then b.totalCost
          else b.totalCost * (1/2))) ∧
    (cancelBooking db bookingId userId now false).1.refundCalls = db.refundCalls := by
  have hcc := one_le_hoursUntilStart_iff b.startTime now
  have hrefundCalls :
      (cancelBooking db bookingId userId now false).1.refundCalls = db.refundCalls := by
    simp only [cancelBooking, hfind]
    rw [if_neg (by simp [hown]), if_neg (not_not_intro hst)]
    rw [hpay]
    split
    · split <;> split <;> rfl
    · rfl
  refine ⟨?_, hrefundCalls⟩
  have hpayments :
      (cancelBooking db bookingId userId now false).1.payments =
        updatePaymentRow db.payments p.id
          (fun x =>
            { x with
              status := .REFUNDED,
              refundAmount :=
                some (if now ≤ b.startTime - 3600000 then b.totalCost
                  else b.totalCost * (1/2)) }) := by
    simp only [cancelBooking, hfind]
    rw [if_neg (by simp [hown]), if_neg (not_not_intro hst)]
    by_cases hc : now ≤ b.startTime - 3600000
    · have hdec : decide ((1:ℚ) ≤ ((b.startTime - now : ℤ) : ℚ) / (1000 * 60 * 60)) = true :=
        decide_eq_true (hcc.mpr hc)
      rw [hpay]
      simp only [hdec, if_true, if_pos hc]
      rw [if_pos ⟨hpos, by simp⟩]
    · have hdec : decide ((1:ℚ) ≤ ((b.startTime - now : ℤ) : ℚ) / (1000 * 60 * 60)) = false := by
        rw [decide_eq_false_iff_not]
        exact fun h => hc (hcc.mp h)
      rw [hpay]
      simp only [hdec, Bool.false_eq_true, if_false, if_neg hc]
      rw [if_pos ⟨mul_pos hpos (by norm_num), by simp⟩]
  rw [hpayments]
  intro q hq hid
  exact mem_updatePaymentRow_refunded db.payments p.id _ q hq hid

/-- Witness for C10: the same concrete cancellation with a succeeding
payment update; the payment row is refunded in full and no external
refund call is recorded. -/
theorem cancelBooking_refund_is_local_only_witness :
    findBooking (DB.mk [Booking.mk 1 2 3 7200000 10800000 8 "AB" .CONFIRMED]
        [Payment.mk 5 2 1 8 .SUCCEEDED none] 0) 1 =
      some (Booking.mk 1 2 3 7200000 10800000 8 "AB" .CONFIRMED) ∧
    (0 : ℚ) < 8 ∧
    ((∀ q ∈ (cancelBooking (DB.mk [Booking.mk 1 2 3 7200000 10800000 8 "AB" .CONFIRMED]
        [Payment.mk 5 2 1 8 .SUCCEEDED none] 0) 1 2 0 false).1.payments,
      q.id = 5 → q.status = .REFUNDED ∧
        q.refundAmount = some (if (0:ℤ) ≤ (Booking.mk 1 2 3 7200000 10800000 8 "AB" .CONFIRMED).startTime - 3600000
          then (Booking.mk 1 2 3 7200000 10800000 8 "AB" .CONFIRMED).totalCost
          else (Booking.mk 1 2 3 7200000 10800000 8 "AB" .CONFIRMED).totalCost * (1/2))) ∧
     (cancelBooking (DB.mk [Booking.mk 1 2 3 7200000 10800000 8 "AB" .CONFIRMED]
        [Payment.mk 5 2 1 8 .SUCCEEDED none] 0) 1 2 0 false).1.refundCalls = 0) :=
  ⟨rfl, by norm_num,
    cancelBooking_refund_is_local_only
      (DB.mk [Booking.mk 1 2 3 7200000 10800000 8 "AB" .CONFIRMED]
        [Payment.mk 5 2 1 8 .SUCCEEDED none] 0) 1 2 0
      (Booking.mk 1 2 3 7200000 10800000 8 "AB" .CONFIRMED)
      (Payment.mk 5 2 1 8 .SUCCEEDED none)
      rfl rfl (Or.inl rfl) rfl (by norm_num)⟩

/-- C6: extending an own `CONFIRMED`/`ACTIVE` booking to a strictly later
end time is rejected with `SPACE_NOT_AVAILABLE` (HTTP 409) iff another
blocking booking (self excluded) overlaps the increment range
`[old end, new end)`; otherwise it succeeds and the returned booking is
the old booking with only `endTime` and `totalCost` changed (status in
particular unchanged), the added amount being exactly
`calculateBookingCost` of the increment at the space's rate; extending
10:00–11:00 at rate 4 to 11:30 adds exactly 2.00. -/
theorem extendBooking_correct
    (db : DB) (spaces : List Space) (bookingId userId : ℕ) (newEndTime : ℤ)
    (newPaymentId : ℕ) (b : Booking) (space : Space)
    (hfind : findBooking db bookingId = some b)
    (hown : b.userId = userId)
    (hst : b.status = .CONFIRMED ∨ b.status = .ACTIVE)
    (hlt : b.endTime < newEndTime)
    (hsp : spaces.find? (fun s => s.id == b.spaceId) = some space)
    (hr : ∀ bb ∈ db.bookings, bb.startTime < bb.endTime) :
    ((extendBooking db spaces bookingId userId newEndTime newPaymentId true).2 =
        .error .SPACE_NOT_AVAILABLE ↔
      ∃ bb ∈ db.bookings, bb.spaceId = b.spaceId ∧
        (bb.status = .CONFIRMED ∨ bb.status = .ACTIVE) ∧ bb.id ≠ b.id ∧
        overlaps bb.startTime bb.endTime b.endTime newEndTime) ∧
    httpStatus .SPACE_NOT_AVAILABLE = 409 ∧
    ((¬ ∃ bb ∈ db.bookings, bb.spaceId = b.spaceId ∧
        (bb.status = .CONFIRMED ∨ bb.status = .ACTIVE) ∧ bb.id ≠ b.id ∧
        overlaps bb.startTime bb.endTime b.endTime newEndTime) →
      (extendBooking db spaces bookingId userId newEndTime newPaymentId true).2 =
        .ok { b with
              endTime := newEndTime,
              totalCost := b.totalCost +
                calculateBookingCost b.endTime newEndTime space.price }) ∧
    calculateBookingCost 39600000 41400000 4 = 2 := by
  have hiff := checkSpaceAvailability_false_iff_blocking db.bookings b.spaceId
    b.endTime newEndTime (some b.id) hlt hr
  have hiff' : checkSpaceAvailability db.bookings b.spaceId b.endTime newEndTime
      (some b.id) = false ↔
      ∃ bb ∈ db.bookings, bb.spaceId = b.spaceId ∧
        (bb.status = .CONFIRMED ∨ bb.status = .ACTIVE) ∧ bb.id ≠ b.id ∧
        overlaps bb.startTime bb.endTime b.endTime newEndTime := by
    rw [hiff]
    constructor
    · rintro ⟨bb, hbb, h1, h2, h3, h4⟩
      exact ⟨bb, hbb, h1, h2, h3 b.id rfl, h4⟩
    · rintro ⟨bb, hbb, h1, h2, h3, h4⟩
      exact ⟨bb, hbb, h1, h2, by rintro eid ⟨⟩; exact h3, h4⟩
  have hconcrete : calculateBookingCost 39600000 41400000 4 = 2 := by
    have hcs := (calculateBookingCost_correct 39600000 41400000 4 (by decide)).1
    rw [hcs]
    have h1 : (⌈(((41400000 - 39600000 : ℤ) : ℚ)) / 3600000 * 4⌉ : ℤ) = 2 := by
      (rw [Int.ceil_eq_iff]; norm_num)
    unfold costSpec ceilToQuarterHour roundHalfUpCents
    rw [h1]
    have h2 : (⌊((2 : ℤ) : ℚ) / 4 * 4 * 100 + 1/2⌋ : ℤ) = 200 := by
      (rw [Int.floor_eq_iff]; norm_num)
    rw [h2]
    norm_num
  rcases hst with hcase | hcase <;>
  · by_cases hav : checkSpaceAvailability db.bookings b.spaceId b.endTime newEndTime
      (some b.id)
    · refine ⟨?_, rfl, ?_, hconcrete⟩
      · simp only [extendBooking, hfind, hown, hcase, hsp]
        simp only [hlt, hav]
        simp [hlt, hav]
        intro x hx h1 h2 h3 hov
        have hfalse := hiff'.mpr ⟨x, hx, h1, h2, h3, hov⟩
        rw [hav] at hfalse
        cases hfalse
      · intro hno
        simp only [extendBooking, hfind, hown, hcase, hsp]
        simp [hlt, hav]
    · have havf : checkSpaceAvailability db.bookings b.spaceId b.endTime newEndTime
          (some b.id) = false := by
        revert hav
        cases checkSpaceAvailability db.bookings b.spaceId b.endTime newEndTime
          (some b.id) <;> simp
      refine ⟨?_, rfl, ?_, hconcrete⟩
      · simp only [extendBooking, hfind, hown, hcase, hsp]
        simp [hlt, hav]
        exact hiff'.mp havf
      · intro hno
        exact absurd (hiff'.mp havf) hno

/-- Witness for C6: the spec's example — a 10:00–11:00 booking at rate 4
extended to 11:30, with a cancelled booking occupying the increment (which
does not block) — succeeds and adds exactly 2.00. -/
theorem extendBooking_correct_witness :
    findBooking (DB.mk [Booking.mk 1 2 3 36000000 39600000 4 "AB" .CONFIRMED,
        Booking.mk 9 5 3 39600000 41400000 4 "CD" .CANCELLED] [] 0) 1 =
      some (Booking.mk 1 2 3 36000000 39600000 4 "AB" .CONFIRMED) ∧
    (((extendBooking (DB.mk [Booking.mk 1 2 3 36000000 39600000 4 "AB" .CONFIRMED,
        Booking.mk 9 5 3 39600000 41400000 4 "CD" .CANCELLED] [] 0)
        [Space.mk 3 7 4 true] 1 2 41400000 11 true).2 = .error .SPACE_NOT_AVAILABLE ↔
      ∃ bb ∈ [Booking.mk 1 2 3 36000000 39600000 4 "AB" .CONFIRMED,
        Booking.mk 9 5 3 39600000 41400000 4 "CD" .CANCELLED], bb.spaceId = 3 ∧
        (bb.status = .CONFIRMED ∨ bb.status = .ACTIVE) ∧ bb.id ≠ 1 ∧
        overlaps bb.startTime bb.endTime 39600000 41400000) ∧
    httpStatus .SPACE_NOT_AVAILABLE = 409 ∧
    ((¬ ∃ bb ∈ [Booking.mk 1 2 3 36000000 39600000 4 "AB" .CONFIRMED,
        Booking.mk 9 5 3 39600000 41400000 4 "CD" .CANCELLED], bb.spaceId = 3 ∧
        (bb.status = .CONFIRMED ∨ bb.status = .ACTIVE) ∧ bb.id ≠ 1 ∧
        overlaps bb.startTime bb.endTime 39600000 41400000) →
      (extendBooking (DB.mk [Booking.mk 1 2 3 36000000 39600000 4 "AB" .CONFIRMED,
        Booking.mk 9 5 3 39600000 41400000 4 "CD" .CANCELLED] [] 0)
        [Space.mk 3 7 4 true] 1 2 41400000 11 true).2 =
        .ok { Booking.mk 1 2 3 36000000 39600000 4 "AB" .CONFIRMED with
              endTime := 41400000,
              totalCost := (Booking.mk 1 2 3 36000000 39600000 4 "AB" .CONFIRMED).totalCost +
                calculateBookingCost 39600000 41400000 (Space.mk 3 7 4 true).price }) ∧
    calculateBookingCost 39600000 41400000 4 = 2) :=
  ⟨rfl, extendBooking_correct
    (DB.mk [Booking.mk 1 2 3 36000000 39600000 4 "AB" .CONFIRMED,
        Booking.mk 9 5 3 39600000 41400000 4 "CD" .CANCELLED] [] 0)
    [Space.mk 3 7 4 true] 1 2 41400000 11
    (Booking.mk 1 2 3 36000000 39600000 4 "AB" .CONFIRMED)
    (Space.mk 3 7 4 true)
    rfl rfl (Or.inl rfl) (by decide) rfl (by decide)⟩

/-- C7: `POST /api/bookings/:id/start` flips the booking to `ACTIVE` iff
the requester owns it, it is `CONFIRMED`, now is at or after
`start − 15min` and at or before `end`; each violated guard yields its
typed rejection (`UNAUTHORIZED`, `INVALID_BOOKING_STATUS`, `TOO_EARLY`,
`BOOKING_EXPIRED`) with the database unchanged, and on success the stored
row becomes `ACTIVE`. -/
theorem startSession_iff (db : DB) (bookingId userId : ℕ) (now : ℤ)
    (b : Booking) (hfind : findBooking db bookingId = some b) :
    ((startSession db bookingId userId now).2 = .ok { b with status := .ACTIVE } ↔
      b.userId = userId ∧ b.status = .CONFIRMED ∧
        b.startTime - 15 * 60 * 1000 ≤ now ∧ now ≤ b.endTime) ∧
    (b.userId ≠ userId →
      startSession db bookingId userId now = (db, .error .UNAUTHORIZED)) ∧
    (b.userId = userId → b.status ≠ .CONFIRMED →
      startSession db bookingId userId now = (db, .error .INVALID_BOOKING_STATUS)) ∧
    (b.userId = userId → b.status = .CONFIRMED →
      now < b.startTime - 15 * 60 * 1000 →
      startSession db bookingId userId now = (db, .error .TOO_EARLY)) ∧
    (b.userId = userId → b.status = .CONFIRMED →
      b.startTime - 15 * 60 * 1000 ≤ now → b.endTime < now →
      startSession db bookingId userId now = (db, .error .BOOKING_EXPIRED)) ∧
    ((startSession db bookingId userId now).2 = .ok { b with status := .ACTIVE } →
      ∀ b' ∈ (startSession db bookingId userId now).1.bookings,
        b'.id = bookingId → b'.status = .ACTIVE) := by
  have hkey : startSession db bookingId userId now =
      (if b.userId ≠ userId then (db, .error .UNAUTHORIZED)
       else if b.status ≠ .CONFIRMED then (db, .error .INVALID_BOOKING_STATUS)
       else if now < b.startTime - 15 * 60 * 1000 then (db, .error .TOO_EARLY)
       else if b.endTime < now then (db, .error .BOOKING_EXPIRED)
       else ({ db with
               bookings := updateBookingRow db.bookings bookingId
                 (fun x => { x with status := .ACTIVE }) },
             .ok { b with status := .ACTIVE })) := by
    simp only [startSession, hfind]
  refine ⟨?_, ?_, ?_, ?_, ?_, ?_⟩
  · rw [hkey]
    constructor
    · intro h
      split_ifs at h with hA hB hC hD
      exact ⟨not_not.mp hA, not_not.mp hB, by omega, by omega⟩
    · rintro ⟨h1, h2, h3, h4⟩
      split_ifs with hA hB hC hD <;>
        first
          | rfl
          | (exact absurd h1 hA)
          | (exact absurd h2 hB)
          | (exfalso; omega)
  · intro h1
    rw [hkey, if_pos h1]
  · intro h1 h2
    rw [hkey]
    split_ifs with hA hB hC hD <;>
      first
        | rfl
        | (exact absurd h1 hA)
        | (exact absurd h2 hB)
        | (exfalso; omega)
  · intro h1 h2 h3
    rw [hkey]
    split_ifs with hA hB hC hD <;>
      first
        | rfl
        | (exact absurd h1 hA)
        | (exact absurd h2 hB)
        | (exfalso; omega)
  · intro h1 h2 h3 h4
    rw [hkey]
    split_ifs with hA hB hC hD <;>
      first
        | rfl
        | (exact absurd h1 hA)
        | (exact absurd h2 hB)
        | (exfalso; omega)
  · intro h
    rw [hkey] at h ⊢
    split_ifs at h ⊢ with hA hB hC hD
    intro b' hb' hid
    exact mem_updateBookingRow_status db.bookings bookingId .ACTIVE b' hb' hid

/-- Witness for C7: the spec's scenario — a confirmed 10:00–12:00 booking
started by its owner at 09:50, inside the 15-minute early window. -/
theorem startSession_iff_witness :
    findBooking (DB.mk [Booking.mk 1 2 3 36000000 43200000 8 "AB" .CONFIRMED] [] 0) 1 =
      some (Booking.mk 1 2 3 36000000 43200000 8 "AB" .CONFIRMED) ∧
    (((startSession (DB.mk [Booking.mk 1 2 3 36000000 43200000 8 "AB" .CONFIRMED] [] 0)
        1 2 35400000).2 =
      .ok { Booking.mk 1 2 3 36000000 43200000 8 "AB" .CONFIRMED with status := .ACTIVE } ↔
      (Booking.mk 1 2 3 36000000 43200000 8 "AB" .CONFIRMED).userId = 2 ∧
        (Booking.mk 1 2 3 36000000 43200000 8 "AB" .CONFIRMED).status = .CONFIRMED ∧
        (Booking.mk 1 2 3 36000000 43200000 8 "AB" .CONFIRMED).startTime - 15 * 60 * 1000 ≤ 35400000 ∧
        (35400000 : ℤ) ≤ (Booking.mk 1 2 3 36000000 43200000 8 "AB" .CONFIRMED).endTime) ∧
     ((Booking.mk 1 2 3 36000000 43200000 8 "AB" .CONFIRMED).userId ≠ 2 →
      startSession (DB.mk [Booking.mk 1 2 3 36000000 43200000 8 "AB" .CONFIRMED] [] 0) 1 2 35400000 =
        (DB.mk [Booking.mk 1 2 3 36000000 43200000 8 "AB" .CONFIRMED] [] 0, .error .UNAUTHORIZED)) ∧
     ((Booking.mk 1 2 3 36000000 43200000 8 "AB" .CONFIRMED).userId = 2 →
      (Booking.mk 1 2 3 36000000 43200000 8 "AB" .CONFIRMED).status ≠ .CONFIRMED →
      startSession (DB.mk [Booking.mk 1 2 3 36000000 43200000 8 "AB" .CONFIRMED] [] 0) 1 2 35400000 =
        (DB.mk [Booking.mk 1 2 3 36000000 43200000 8 "AB" .CONFIRMED] [] 0, .error .INVALID_BOOKING_STATUS)) ∧
     ((Booking.mk 1 2 3 36000000 43200000 8 "AB" .CONFIRMED).userId = 2 →
      (Booking.mk 1 2 3 36000000 43200000 8 "AB" .CONFIRMED).status = .CONFIRMED →
      (35400000 : ℤ) < (Booking.mk 1 2 3 36000000 43200000 8 "AB" .CONFIRMED).startTime - 15 * 60 * 1000 →
      startSession (DB.mk [Booking.mk 1 2 3 36000000 43200000 8 "AB" .CONFIRMED] [] 0) 1 2 35400000 =
        (DB.mk [Booking.mk 1 2 3 36000000 43200000 8 "AB" .CONFIRMED] [] 0, .error .TOO_EARLY)) ∧
     ((Booking.mk 1 2 3 36000000 43200000 8 "AB" .CONFIRMED).userId = 2 →
      (Booking.mk 1 2 3 36000000 43200000 8 "AB" .CONFIRMED).status = .CONFIRMED →
      (Booking.mk 1 2 3 36000000 43200000 8 "AB" .CONFIRMED).startTime - 15 * 60 * 1000 ≤ 35400000 →
      (Booking.mk 1 2 3 36000000 43200000 8 "AB" .CONFIRMED).endTime < 35400000 →
      startSession (DB.mk [Booking.mk 1 2 3 36000000 43200000 8 "AB" .CONFIRMED] [] 0) 1 2 35400000 =
        (DB.mk [Booking.mk 1 2 3 36000000 43200000 8 "AB" .CONFIRMED] [] 0, .error .BOOKING_EXPIRED)) ∧
     ((startSession (DB.mk [Booking.mk 1 2 3 36000000 43200000 8 "AB" .CONFIRMED] [] 0)
        1 2 35400000).2 =
      .ok { Booking.mk 1 2 3 36000000 43200000 8 "AB" .CONFIRMED with status := .ACTIVE } →
      ∀ b' ∈ (startSession (DB.mk [Booking.mk 1 2 3 36000000 43200000 8 "AB" .CONFIRMED] [] 0)
        1 2 35400000).1.bookings, b'.id = 1 → b'.status = .ACTIVE)) :=
  ⟨rfl, startSession_iff (DB.mk [Booking.mk 1 2 3 36000000 43200000 8 "AB" .CONFIRMED] [] 0)
    1 2 35400000 (Booking.mk 1 2 3 36000000 43200000 8 "AB" .CONFIRMED) rfl⟩

/-- C8: with the webhook secret configured, any notification whose
signature verification fails is answered with HTTP 400 — code
`INVALID_SIGNATURE` for a `StripeSignatureVerificationError`, code
`WEBHOOK_PROCESSING_ERROR` for any other construction failure — and the
event handler is never invoked: the database state is unchanged for every
possible handler. -/
theorem stripeWebhook_rejects_unverified (db : DB)
    (handleWebhookEvent : StripeEvent → DB → DB) :
    stripeWebhook db true .signatureError handleWebhookEvent =
      (db, 400, .INVALID_SIGNATURE) ∧
    stripeWebhook db true .otherError handleWebhookEvent =
      (db, 400, .WEBHOOK_PROCESSING_ERROR) ∧
    (∀ r : ConstructEventResult, (∀ e, r ≠ .verified e) →
      (stripeWebhook db true r handleWebhookEvent).1 = db ∧
      (stripeWebhook db true r handleWebhookEvent).2.1 = 400) := by
  refine ⟨rfl, rfl, ?_⟩
  intro r hr
  cases r with
  | verified e => exact absurd rfl (hr e)
  | signatureError => exact ⟨rfl, rfl⟩
  | otherError => exact ⟨rfl, rfl⟩

/-- Witness for C8: a handler that would wipe the database is never run on
a signature-verification failure. -/
theorem stripeWebhook_rejects_unverified_witness :
    stripeWebhook (DB.mk [Booking.mk 1 2 3 0 100 8 "AB" .CONFIRMED] [] 0) true
        .signatureError (fun _ _ => DB.mk [] [] 99) =
      (DB.mk [Booking.mk 1 2 3 0 100 8 "AB" .CONFIRMED] [] 0, 400, .INVALID_SIGNATURE) ∧
    stripeWebhook (DB.mk [Booking.mk 1 2 3 0 100 8 "AB" .CONFIRMED] [] 0) true
        .otherError (fun _ _ => DB.mk [] [] 99) =
      (DB.mk [Booking.mk 1 2 3 0 100 8 "AB" .CONFIRMED] [] 0, 400, .WEBHOOK_PROCESSING_ERROR) ∧
    (∀ r : ConstructEventResult, (∀ e, r ≠ .verified e) →
      (stripeWebhook (DB.mk [Booking.mk 1 2 3 0 100 8 "AB" .CONFIRMED] [] 0) true r
          (fun _ _ => DB.mk [] [] 99)).1 =
        DB.mk [Booking.mk 1 2 3 0 100 8 "AB" .CONFIRMED] [] 0 ∧
      (stripeWebhook (DB.mk [Booking.mk 1 2 3 0 100 8 "AB" .CONFIRMED] [] 0) true r
          (fun _ _ => DB.mk [] [] 99)).2.1 = 400) :=
  stripeWebhook_rejects_unverified
    (DB.mk [Booking.mk 1 2 3 0 100 8 "AB" .CONFIRMED] [] 0) (fun _ _ => DB.mk [] [] 99)

/-- Every error returned by the guard phase of the create handler leaves
the state untouched. -/
theorem createPendingBooking_guard_error (db : DB) (spaces : List Space)
    (now : ℤ) (req : CreateReq) (userId newBookingId : ℕ) (e : ErrCode) :
    (createPendingBooking db spaces now req userId newBookingId).2 = .error e →
    (createPendingBooking db spaces now req userId newBookingId).1 = db := by
  unfold createPendingBooking
  repeat' first
    | exact fun _ => rfl
    | split
    | (intro h; simp at h)

/-- Every error returned by the update handler leaves the state untouched. -/
theorem updateBooking_guard_error (db : DB) (bookingId userId : ℕ) (now : ℤ)
    (req : UpdateReq) (e : ErrCode) :
    (updateBooking db bookingId userId now req).2 = .error e →
    (updateBooking db bookingId userId now req).1 = db := by
  unfold updateBooking
  repeat' first
    | exact fun _ => rfl
    | split
    | (intro h; simp at h)

/-- Every error returned by the extend handler leaves the state untouched
(also the payment failure, which throws before the write). -/
theorem extendBooking_guard_error (db : DB) (spaces : List Space)
    (bookingId userId : ℕ) (newEndTime : ℤ) (newPaymentId : ℕ)
    (paymentOk : Bool) (e : ErrCode) :
    (extendBooking db spaces bookingId userId newEndTime newPaymentId paymentOk).2 =
      .error e →
    (extendBooking db spaces bookingId userId newEndTime newPaymentId paymentOk).1 = db := by
  unfold extendBooking
  repeat' first
    | exact fun _ => rfl
    | split
    | (intro h; simp at h)

/-- Every error returned by the cancel handler leaves the state untouched. -/
theorem cancelBooking_guard_error (db : DB) (bookingId userId : ℕ) (now : ℤ)
    (paymentUpdateFails : Bool) (e : ErrCode) :
    (cancelBooking db bookingId userId now paymentUpdateFails).2 = .error e →
    (cancelBooking db bookingId userId now paymentUpdateFails).1 = db := by
  unfold cancelBooking
  repeat' first
    | exact fun _ => rfl
    | split
    | (intro h; simp at h)

/-- Every error returned by the start handler leaves the state untouched. -/
theorem startSession_guard_error (db : DB) (bookingId userId : ℕ) (now : ℤ)
    (e : ErrCode) :
    (startSession db bookingId userId now).2 = .error e →
    (startSession db bookingId userId now).1 = db := by
  unfold startSession
  repeat' first
    | exact fun _ => rfl
    | split
    | (intro h; simp at h)

/-- Every error returned by the stop handler leaves the state untouched. -/
theorem stopSession_guard_error (db : DB) (bookingId userId : ℕ) (e : ErrCode) :
    (stopSession db bookingId userId).2 = .error e →
    (stopSession db bookingId userId).1 = db := by
  unfold stopSession
  repeat' first
    | exact fun _ => rfl
    | split
    | (intro h; simp at h)

/-- C9: on every booking-lifecycle operation, a guard or validation
rejection (any typed error other than the create flow's `PAYMENT_FAILED`,
which is a collaborator failure, not a guard) is raised before any
database write, so the stored Booking and Payment state after the
rejection equals the state before the call. -/
theorem guardRejection_no_mutation
    (db : DB) (spaces : List Space) (now : ℤ) (creq : CreateReq)
    (ureq : UpdateReq) (userId newBookingId newPaymentId bookingId : ℕ)
    (newEndTime : ℤ) (paymentOk paymentUpdateFails : Bool) :
    (∀ e : ErrCode, e ≠ .PAYMENT_FAILED →
      (createBooking db spaces now creq userId newBookingId newPaymentId paymentOk).2 =
        .error e →
      (createBooking db spaces now creq userId newBookingId newPaymentId paymentOk).1 = db) ∧
    (∀ e : ErrCode,
      (updateBooking db bookingId userId now ureq).2 = .error e →
      (updateBooking db bookingId userId now ureq).1 = db) ∧
    (∀ e : ErrCode,
      (extendBooking db spaces bookingId userId newEndTime newPaymentId paymentOk).2 =
        .error e →
      (extendBooking db spaces bookingId userId newEndTime newPaymentId paymentOk).1 = db) ∧
    (∀ e : ErrCode,
      (cancelBooking db bookingId userId now paymentUpdateFails).2 = .error e →
      (cancelBooking db bookingId userId now paymentUpdateFails).1 = db) ∧
    (∀ e : ErrCode,
      (startSession db bookingId userId now).2 = .error e →
      (startSession db bookingId userId now).1 = db) ∧
    (∀ e : ErrCode,
      (stopSession db bookingId userId).2 = .error e →
      (stopSession db bookingId userId).1 = db) := by
  refine ⟨?_, fun e => updateBooking_guard_error db bookingId userId now ureq e,
    fun e => extendBooking_guard_error db spaces bookingId userId newEndTime newPaymentId
      paymentOk e,
    fun e => cancelBooking_guard_error db bookingId userId now paymentUpdateFails e,
    fun e => startSession_guard_error db bookingId userId now e,
    fun e => stopSession_guard_error db bookingId userId e⟩
  intro e hne h
  unfold createBooking at h ⊢
  rcases hc : createPendingBooking db spaces now creq userId newBookingId with ⟨db1, r⟩
  rw [hc] at h
  cases r with
  | error e' =>
    have hstate := createPendingBooking_guard_error db spaces now creq userId newBookingId e'
    rw [hc] at hstate
    exact hstate rfl
  | ok bk =>
    cases paymentOk with
    | true => exact nomatch h
    | false => simp only [] at h; cases h; exact absurd rfl hne

/-- Witness for C9: one concrete database; creating against an unknown
space and updating/extending/cancelling/starting/stopping someone else's
booking are all rejected with the database unchanged. -/
theorem guardRejection_no_mutation_witness :
    (createBooking (DB.mk [Booking.mk 1 2 3 36000000 43200000 8 "AB" .CONFIRMED] [] 0)
      [] 0 (CreateReq.mk 1 1000 5000 "ab") 5 10 11 true).1 =
      DB.mk [Booking.mk 1 2 3 36000000 43200000 8 "AB" .CONFIRMED] [] 0 ∧
    (updateBooking (DB.mk [Booking.mk 1 2 3 36000000 43200000 8 "AB" .CONFIRMED] [] 0)
      1 5 0 (UpdateReq.mk none)).1 =
      DB.mk [Booking.mk 1 2 3 36000000 43200000 8 "AB" .CONFIRMED] [] 0 ∧
    (extendBooking (DB.mk [Booking.mk 1 2 3 36000000 43200000 8 "AB" .CONFIRMED] [] 0)
      [] 1 5 50000000 11 true).1 =
      DB.mk [Booking.mk 1 2 3 36000000 43200000 8 "AB" .CONFIRMED] [] 0 ∧
    (cancelBooking (DB.mk [Booking.mk 1 2 3 36000000 43200000 8 "AB" .CONFIRMED] [] 0)
      1 5 0 false).1 =
      DB.mk [Booking.mk 1 2 3 36000000 43200000 8 "AB" .CONFIRMED] [] 0 ∧
    (startSession (DB.mk [Booking.mk 1 2 3 36000000 43200000 8 "AB" .CONFIRMED] [] 0)
      1 5 0).1 =
      DB.mk [Booking.mk 1 2 3 36000000 43200000 8 "AB" .CONFIRMED] [] 0 ∧
    (stopSession (DB.mk [Booking.mk 1 2 3 36000000 43200000 8 "AB" .CONFIRMED] [] 0)
      1 5).1 =
      DB.mk [Booking.mk 1 2 3 36000000 43200000 8 "AB" .CONFIRMED] [] 0 :=
  let T := guardRejection_no_mutation
    (DB.mk [Booking.mk 1 2 3 36000000 43200000 8 "AB" .CONFIRMED] [] 0)
    [] 0 (CreateReq.mk 1 1000 5000 "ab") (UpdateReq.mk none) 5 10 11 1 50000000 true false
  ⟨T.1 .SPACE_NOT_FOUND (by decide) rfl,
   T.2.1 .UNAUTHORIZED rfl,
   T.2.2.1 .UNAUTHORIZED rfl,
   T.2.2.2.1 .UNAUTHORIZED rfl,
   T.2.2.2.2.1 .UNAUTHORIZED rfl,
   T.2.2.2.2.2 .UNAUTHORIZED rfl⟩

end EasyParkNow
